import Mathlib

/-!
Verification of the waldiez/studio execution/streaming core against its
natural-language specification.  The Python sources under
`waldiez_studio/` are shallowly embedded: pure helpers become Lean
functions, stateful engine methods become explicit state-passing
functions returning the list of websocket events they emit, and the
behaviour of external processes/kernels is supplied as an explicit
oracle argument.  Machine integers stay `Nat`/`Int` (no overflow is
relevant here), fallible code returns `Option`/`Except`.
-/

namespace WaldiezStudio

/-- Server→client events emitted over a run or terminal channel.
`runStream "stdout" t` is the JSON message `type: "run_stdout"` with
`data.text = t` (same for `"stderr"`); `runEnd` carries the optional
`returnCode` (the notebook engine's `run_end` has none). -/
inductive Event where
  | runStatus (state : String)
  | runStream (label : String) (text : String)
  | runEnd (status : String) (returnCode : Option Int) (elapsedMs : Nat)
  | cellStart (index : Nat)
  | cellEnd (index : Nat) (status : String)
  | cellOutput (mime : String) (text : String)
  | kernelStatus (executionState : String)
  | inputRequest (requestId : String) (prompt : String)
  | compileStart (source : String)
  | compileEnd (py : String)
  | compileError (message : String)
  | protocolError (message : String)
  | sessionEnd
  deriving DecidableEq

/-- Is this a terminal `run_end`-class event? -/
def Event.isRunEnd : Event → Bool
  | .runEnd _ _ _ => true
  | _ => false

/-- Number of `run_end` events in a list. -/
def countRunEnd (es : List Event) : Nat :=
  (es.filter Event.isRunEnd).length

/-! ## `utils/paths.py`: `path_to_id` / `id_to_path`

`path_to_id` is `base64.urlsafe_b64encode(path.as_posix().encode()).decode()`
and `id_to_path` is `Path(base64.urlsafe_b64decode(identifier).decode())`.
We embed the URL-safe base64 codec of Python's `base64` module (RFC 4648
with the `-`/`_` alphabet and `=` padding) on byte lists; a path is
represented by the UTF-8 bytes of its POSIX string form, so the
encoder/decoder pair below is exactly the identifier scheme applied to
those bytes.  `id_to_path` returns `none` where `urlsafe_b64decode`
raises (bad length, bad padding or a non-alphabet byte). -/

/-- The URL-safe base64 alphabet: sextet value (< 64) to ASCII code. -/
def charOfSextet (s : Nat) : Nat :=
  if s < 26 then 65 + s
  else if s < 52 then 97 + (s - 26)
  else if s < 62 then 48 + (s - 52)
  else if s = 62 then 45
  else 95

/-- Inverse of `charOfSextet`: ASCII code back to sextet value. -/
def sextetOfChar (c : Nat) : Option Nat :=
  if 65 ≤ c ∧ c ≤ 90 then some (c - 65)
  else if 97 ≤ c ∧ c ≤ 122 then some (26 + (c - 97))
  else if 48 ≤ c ∧ c ≤ 57 then some (52 + (c - 48))
  else if c = 45 then some 62
  else if c = 95 then some 63
  else none

/-- ASCII code of the base64 padding character. -/
def padChar : Nat := 61

/-- `path_to_id`: URL-safe base64 encoding of the path's bytes
(groups of three bytes become four alphabet characters; a final group
of one or two bytes is padded with `=`). -/
def path_to_id : List Nat → List Nat
  | [] => []
  | [a] =>
      [charOfSextet (a / 4), charOfSextet (a % 4 * 16), padChar, padChar]
  | [a, b] =>
      [charOfSextet (a / 4), charOfSextet (a % 4 * 16 + b / 16),
       charOfSextet (b % 16 * 4), padChar]
  | a :: b :: c :: rest =>
      charOfSextet (a / 4) :: charOfSextet (a % 4 * 16 + b / 16) ::
      charOfSextet (b % 16 * 4 + c / 64) :: charOfSextet (c % 64) ::
      path_to_id rest

/-- `id_to_path`: URL-safe base64 decoding back to the path's bytes;
`none` where Python's `urlsafe_b64decode` raises. -/
def id_to_path : List Nat → Option (List Nat)
  | [] => some []
  | c1 :: c2 :: c3 :: c4 :: rest =>
      if c4 = padChar then
        if rest.isEmpty = false then none
        else if c3 = padChar then
          match sextetOfChar c1, sextetOfChar c2 with
          | some s1, some s2 => some [s1 * 4 + s2 / 16]
          | _, _ => none
        else
          match sextetOfChar c1, sextetOfChar c2, sextetOfChar c3 with
          | some s1, some s2, some s3 =>
              some [s1 * 4 + s2 / 16, s2 % 16 * 16 + s3 / 4]
          | _, _, _ => none
      else
        match sextetOfChar c1, sextetOfChar c2, sextetOfChar c3,
            sextetOfChar c4 with
        | some s1, some s2, some s3, some s4 =>
            match id_to_path rest with
            | some tail =>
                some ((s1 * 4 + s2 / 16) :: (s2 % 16 * 16 + s3 / 4) ::
                      (s3 % 4 * 64 + s4) :: tail)
            | none => none
        | _, _, _, _ => none
  | _ => none

/-! ## Run-channel protocol runner (spec §4.7)

The engine-binding Task Runner driven by `routes/ws.py`
(`TaskRunner(task_id=…, websocket=…, engine=engine)` followed by
`runner.listen()`). -/

/-- An inbound client message on the run channel: either structured data
with an `op` field and an opaque payload, or content that fails to
decode. -/
inductive WsMsg where
  | decoded (op : String) (payload : String)
  | undecodable
  deriving DecidableEq

/-- Calls the runner makes into its bound `Engine`. -/
inductive EngineCall where
  | startCall (payload : String)
  | handleClient (op : String) (payload : String)
  | shutdownCall
  deriving DecidableEq

/-- Result of pumping the run channel: events emitted to the client,
calls made into the engine, and how many inbound messages were read. -/
structure ListenResult where
  events : List Event
  calls : List EngineCall
  readCount : Nat
  deriving DecidableEq

/-- Modelled from the spec: the steady-state loop of the run-channel
Task Runner after a valid start (spec §4.7) — read, decode, on decode
failure emit an `error` event for that message only and keep listening,
on success forward to `engine.handle_client`; the loop ends at
disconnect. -/
def listenLoop : List WsMsg → List Event × List EngineCall
  | [] => ([], [])
  | .undecodable :: rest =>
      let r := listenLoop rest
      (Event.protocolError "Invalid message" :: r.1, r.2)
  | .decoded op p :: rest =>
      let r := listenLoop rest
      (r.1, EngineCall.handleClient op p :: r.2)

/-- Modelled from the spec: the run-channel Task Runner's `listen`
(spec §4.7), the engine-binding runner constructed by `routes/ws.py`;
this variant of `TaskRunner` is absent from the checked-out sources
(the file `utils/task_runner.py` holds the thread-bridged §4.8 variant
instead; only the caller `routes/ws.py` is present).  First inbound
message must decode with `op == "start"`: any other first message
yields a single `error` event and an immediate return with no engine
`start()` and no further reads; a valid start invokes `engine.start`
with the payload and enters `listenLoop`; `engine.shutdown()` runs in a
finally block on every exit path. -/
def listen (msgs : List WsMsg) : ListenResult :=
  match msgs with
  | [] => ⟨[], [EngineCall.shutdownCall], 0⟩
  | .decoded op p :: rest =>
      if op = "start" then
        let r := listenLoop rest
        ⟨r.1, EngineCall.startCall p :: r.2 ++ [EngineCall.shutdownCall],
         msgs.length⟩
      else
        ⟨[Event.protocolError "Expected start"],
         [EngineCall.shutdownCall], 1⟩
  | .undecodable :: _ =>
      ⟨[Event.protocolError "Expected start"],
       [EngineCall.shutdownCall], 1⟩

/-- Does the first message decode as structured data with `op == "start"`? -/
def firstIsStart : WsMsg → Bool
  | .decoded op _ => op == "start"
  | .undecodable => false

/-- Number of `engine.start()` invocations in a call list. -/
def countStartCalls (cs : List EngineCall) : Nat :=
  (cs.filter fun c => match c with
    | .startCall _ => true
    | _ => false).length

/-! ## `utils/task_runner.py`: interactive input bridging (§4.8)

`TaskRunner._send_input_request` registers a fresh future under a new
request id, sends an `input_request` event, and awaits the future with
`asyncio.wait_for(…, timeout=self.input_timeout)`; on timeout it
returns the empty string, and a `finally` clause pops the pending
entry either way.  The worker-thread `on_input` callback blocks on the
scheduled coroutine and proceeds with its result.  We model the
environment's behaviour (whether a matching reply resolves the future
before the timeout) as an explicit outcome. -/

/-- Default of the `input_timeout` constructor argument (seconds). -/
def inputTimeoutDefault : Nat := 30

/-- Whether the awaited input future resolves before the timeout. -/
inductive InputOutcome where
  | reply (value : String)
  | timedOut
  deriving DecidableEq

/-- Pending-inputs map of the runner, keyed by request id (the futures
themselves carry no state we need). -/
abbrev PendingInputs := List String

/-- `TaskRunner._send_input_request`: returns the coroutine's result
(the reply value, or the empty string on `asyncio.TimeoutError`), the
pending-inputs map after the `finally` pop, and the events sent.
`rid` is the fresh `uuid4().hex` request id.  Whether the blocked
worker-thread caller ever receives this result is a separate question
— see `onInputNoReply` for the worker side's own deadline. -/
def sendInputRequest (pending : PendingInputs) (rid prompt : String)
    (outcome : InputOutcome) : String × PendingInputs × List Event :=
  let registered : List String := rid :: pending
  let afterPop := registered.erase rid
  match outcome with
  | .reply v => (v, afterPop, [Event.inputRequest rid prompt])
  | .timedOut => ("", afterPop, [Event.inputRequest rid prompt])

/-- What `future.result(timeout=self.input_timeout)` delivers to the
blocked worker thread: the coroutine's value if the future completes
within the worker's own deadline, otherwise a raised
`concurrent.futures.TimeoutError`. -/
inductive WorkerResult where
  | value (s : String)
  | timeoutError
  deriving DecidableEq

/-- The worker side of `on_input` for a request that receives no client
reply: `run_coroutine_threadsafe` schedules `_send_input_request` on
the event loop and the worker immediately blocks in
`future.result(timeout=self.input_timeout)`, so the worker's clock
starts at once, while the coroutine's `asyncio.wait_for` clock starts
only after the loop has scheduled the coroutine and `send_json` has
sent the `input_request` event — a combined delay of `d` time units
(positive in any real execution).  The coroutine then resolves to the
empty string at `d + inputTimeout` on the worker's clock, so the
worker receives it only when it lands within the worker's deadline
`inputTimeout`; otherwise `future.result` raises
`concurrent.futures.TimeoutError` in the worker thread. -/
def onInputNoReply (inputTimeout d : Nat) : WorkerResult :=
  if d + inputTimeout ≤ inputTimeout then WorkerResult.value ""
  else WorkerResult.timeoutError

/-! ## `engines/subprocess_engine.py` -/

/-- The spawned child process as the engine sees it: just its (possibly
not yet available) return code. -/
structure ProcState where
  returncode : Option Int
  deriving DecidableEq

/-- The mutable attributes of `SubprocessEngine` relevant to
finalization (`proc`, `_did_end`, `_start_ts`; timestamps in ms). -/
structure SubEngineState where
  proc : Option ProcState
  didEnd : Bool
  startTs : Nat
  deriving DecidableEq

/-- Capacity of the engine's output queue (`asyncio.Queue(maxsize=10000)`). -/
def subQueueCap : Nat := 10000

/-- `SubprocessEngine._finalize(rc)` at wall-clock `now`: a no-op when
`_did_end` is already set, otherwise sets it and emits the single
`run_end` with `status = "ok" iff (rc or 0) == 0`, `returnCode = rc or 0`
and the elapsed milliseconds. -/
def subFinalize (now : Nat) (rc : Option Int) (s : SubEngineState) :
    SubEngineState × List Event :=
  if s.didEnd then (s, [])
  else
    ({ s with didEnd := true },
     [Event.runEnd (if rc.getD 0 = 0 then "ok" else "error")
        (some (rc.getD 0)) (now - s.startTs)])

/-- `SubprocessEngine.shutdown()`: after the 5s→3s→kill escalation
waits (real time, not modelled) it computes
`rc = self.proc.returncode if self.proc else 0` and calls `_finalize`. -/
def subShutdown (now : Nat) (s : SubEngineState) :
    SubEngineState × List Event :=
  let rc : Option Int :=
    match s.proc with
    | none => some 0
    | some p => p.returncode
  subFinalize now rc s

/-- Outcome of `await queue.put(m)` on a bounded `asyncio.Queue`: the
item is appended when there is room, otherwise the producer suspends
with the queue unchanged until a consumer frees a slot. -/
inductive PutOutcome where
  | admitted (queue : List Nat)
  | producerBlocked (queue : List Nat)
  deriving DecidableEq

/-- The enqueue step of `SubprocessEngine._read_stream`'s `emit` (and of
every other producer in that engine): a plain `await self._queue.put`. -/
def subStreamPut (cap : Nat) (q : List Nat) (m : Nat) : PutOutcome :=
  if q.length < cap then .admitted (q ++ [m]) else .producerBlocked q

/-- Queue contents after the put step. -/
def PutOutcome.queueAfter : PutOutcome → List Nat
  | .admitted q => q
  | .producerBlocked q => q

/-- Indices of the newline characters in a buffer, in increasing
order (what `buf.find(b"\n", start)` enumerates as `start` advances
past each hit). -/
def newlinePositions : List Char → List Nat
  | [] => []
  | c :: rest =>
      let tail := (newlinePositions rest).map (· + 1)
      if c = '\n' then 0 :: tail else tail

/-- One iteration of `_read_stream`'s outer loop on a received chunk:
extend the buffer, then for each newline position `nl` (in order) emit
`bytes(buf[:nl])` — the slice starts at index 0, not at `start`, so a
buffered region holding two or more newlines emits cumulative prefixes
of itself, not individual lines.  When the final `find` misses and the
whole buffer exceeds `maxPending` bytes, its first `readChunk` bytes
are spilled as one more emission and dropped from the front; finally
`del buf[:start]` removes everything up to one past the last newline
from the (possibly reassigned) buffer. -/
def processChunk (maxPending readChunk : Nat) (buf0 chunk : List Char) :
    List (List Char) × List Char :=
  let buf := buf0 ++ chunk
  let nls := newlinePositions buf
  let lines := nls.map fun n => buf.take n
  let start := match nls.getLast? with
    | none => 0
    | some n => n + 1
  if buf.length > maxPending then
    (lines ++ [buf.take readChunk], (buf.drop readChunk).drop start)
  else (lines, buf.drop start)

/-- `_read_stream` over the whole life of the stream: fold
`processChunk` over the chunks the child produced and flush any
newline-less tail at EOF. -/
def readStreamGo (maxPending readChunk : Nat) (buf : List Char) :
    List (List Char) → List (List Char)
  | [] => if buf.isEmpty then [] else [buf]
  | chunk :: more =>
      let r := processChunk maxPending readChunk buf chunk
      r.1 ++ readStreamGo maxPending readChunk r.2 more

/-- `_MAX_PENDING_LINE_BYTES`. -/
def maxPendingLineBytes : Nat := 2000000

/-- `_READ_CHUNK`. -/
def readChunkSize : Nat := 16384

/-- The `run_stdout`/`run_stderr` events `_read_stream` enqueues for a
given stream (as the downstream sender will deliver them, in FIFO
order). -/
def readStreamEvents (label : String) (chunks : List (List Char)) :
    List Event :=
  (readStreamGo maxPendingLineBytes readChunkSize [] chunks).map
    fun l => Event.runStream label (String.mk l)

/-- The full event sequence of a Subprocess Engine run whose child
writes `chunks` on stdout (no stderr) and exits with code `rc`:
`start()` enqueues `run_status{state: started}` first, the stream
reader enqueues the line events, and `_wait_and_finalize` emits the
terminal `run_end` once the process exits. -/
def subRunEvents (chunks : List (List Char)) (rc : Int)
    (startTs now : Nat) : List Event :=
  Event.runStatus "started" :: readStreamEvents "stdout" chunks ++
    (subFinalize now (some rc)
      ⟨some ⟨some rc⟩, false, startTs⟩).2

/-! ## `engines/notebook_engine.py` -/

/-- `NotebookEngine.max_queue` (`asyncio.Queue(maxsize=1000)`). -/
def nbMaxQueue : Nat := 1000

/-- `NotebookEngine._enqueue`: `put_nowait`, and on `QueueFull` drop
one item from the head (`get_nowait`) and then put the new message
(which now has room). -/
def nbEnqueue (cap : Nat) (q : List Nat) (m : Nat) : List Nat :=
  if q.length < cap then q ++ [m] else q.tail ++ [m]

/-- What the kernel does with one submitted cell: a shell reply with a
terminal status (`ok`/`error`/`aborted` — `_wait_shell_reply`), no
reply within `exec_timeout_sec`, or an exception out of
`execute`/`_wait_shell_reply`. -/
inductive CellOutcome where
  | reply (status : String)
  | timedOut
  | execError (msg : String)
  deriving DecidableEq

/-- One notebook cell: whether `cell_type == "code"` (others are
skipped without consuming an index). -/
structure NbCell where
  isCode : Bool
  deriving DecidableEq

/-- The cell loop of `NotebookEngine.start` (run under
`KernelManager.lock()`): for each code cell emit `cell_start`, submit
it, and dispatch on the kernel's outcome — a reply emits `cell_end`
with the reply status and continues; a timeout interrupts the kernel,
emits a `run_stderr` notice plus a timeout `cell_end`, and breaks; an
exception emits a `run_stderr` plus an error `cell_end` and breaks.
`idx` is the running code-cell index (the source counts from -1 and
pre-increments; we pass the next index to use). -/
def runCells : List NbCell → List CellOutcome → Nat → List Event
  | [], _, _ => []
  | cell :: rest, outcomes, idx =>
      if cell.isCode = false then runCells rest outcomes idx
      else
        match outcomes with
        | [] => [Event.cellStart idx]
        | o :: os =>
            Event.cellStart idx ::
            match o with
            | .reply s => Event.cellEnd idx s :: runCells rest os (idx + 1)
            | .timedOut =>
                [Event.runStream "stderr" "Execution timed out; interrupted.\n",
                 Event.cellEnd idx "timeout"]
            | .execError m =>
                [Event.runStream "stderr" ("Execution error: " ++ m ++ "\n"),
                 Event.cellEnd idx "error"]

/-- A kernel iopub-channel message as `_forward_iopub` inspects it. -/
inductive IopubMsg where
  | statusMsg (executionState : String)
  | streamMsg (name : String) (text : String)
  | errorMsg (traceback : List String)
  | otherMsg
  deriving DecidableEq

/-- `NotebookEngine._forward_iopub`'s translation of one iopub message
into queued events (the `display_data`/`execute_result` mime handling
is omitted as no claim touches it): an `error` message becomes a
`run_stderr` carrying the newline-joined traceback. -/
def forwardIopub : IopubMsg → List Event
  | .statusMsg st => [Event.kernelStatus st]
  | .streamMsg name text =>
      [Event.runStream (if name = "stdout" then "stdout" else "stderr") text]
  | .errorMsg tb => [Event.runStream "stderr" (String.intercalate "\n" tb)]
  | .otherMsg => []

/-- The attributes of `NotebookEngine` that `shutdown` reads. -/
structure NbEngineState where
  startTs : Nat
  deriving DecidableEq

/-- `NotebookEngine.shutdown()`: cancel the monitors, stop the
channels, then send `run_end{status: "ok", elapsedMs}` — there is no
once-guard, every call emits it. -/
def nbShutdown (now : Nat) (s : NbEngineState) : List Event :=
  [Event.runEnd "ok" none (now - s.startTs)]

/-! ## `engines/waldiez_engine.py` -/

/-- The delegate invocation `WaldiezEngine.start` assembles for the
internal `SubprocessEngine`. -/
structure DelegateStart where
  module : String
  args : List String
  deriving DecidableEq

/-- Attributes of `WaldiezEngine` that `shutdown` touches: the owned
background task and the delegate's state. -/
structure WzEngineState where
  task : Option Unit
  delegate : Option SubEngineState
  deriving DecidableEq

/-- `WaldiezEngine.start`: emit `compile_start`, run `_compile_to_py`
(outcome supplied: `.ok py` or `.error message` for a raised
exception); on failure emit `compile_error` then
`run_end{status: "error", returnCode: -1, elapsedMs: 0}` and return with
no delegate; on success emit `compile_end`, build the delegate and its
invocation (`module="waldiez"`, fixed args plus the string entries of
the start message's `args`), and start it. -/
def wzStart (src : String) (compileResult : Except String String)
    (userArgs : List String) : List Event × Option DelegateStart :=
  match compileResult with
  | .error e =>
      ([Event.compileStart src, Event.compileError e,
        Event.runEnd "error" (some (-1)) 0], none)
  | .ok py =>
      ([Event.compileStart src, Event.compileEnd py],
       some ⟨"waldiez",
             ["run", "--file", src, "--output", py, "--force",
              "--structured"] ++ userArgs⟩)

/-- `WaldiezEngine.shutdown()`: cancel the owned task if any, then shut
the delegate down if one exists; with no delegate nothing further
happens.  Returns the new state, the events emitted, and whether the
delegate's shutdown was invoked. -/
def wzShutdown (now : Nat) (s : WzEngineState) :
    WzEngineState × List Event × Bool :=
  match s.delegate with
  | none => ({ s with task := none }, [], false)
  | some d =>
      let r := subShutdown now d
      ({ task := none, delegate := some r.1 }, r.2, true)

/-! ## `engines/kernel.py`: `KernelManager`

Each classmethod is embedded as the trace of lock and kernel actions it
performs, so that "executes while holding the mutex" is a checkable
property of the trace. -/

/-- One step a `KernelManager` classmethod performs. -/
inductive KAct where
  | acquire
  | release
  | startKernel
  | interruptKernel
  | restartKernel
  | shutdownKernel
  | setHandle (present : Bool)
  | touchLastUsed
  deriving DecidableEq

/-- Steps that touch the kernel process or the shared handle. -/
def KAct.isKernelMutation : KAct → Bool
  | .startKernel => true
  | .interruptKernel => true
  | .restartKernel => true
  | .shutdownKernel => true
  | .setHandle _ => true
  | .touchLastUsed => false
  | .acquire => false
  | .release => false

/-- The shared class-level state the methods read. -/
structure KMState where
  kmPresent : Bool
  lastUsed : Nat
  deriving DecidableEq

/-- `IDLE_TTL_SEC = 15 * 60`. -/
def idleTtlSec : Nat := 900

/-- `KernelManager.get()`: under the lock, start a kernel if none
exists, refresh `last_used`, release. -/
def getTrace (s : KMState) : List KAct :=
  [KAct.acquire] ++
    (if s.kmPresent then [] else [KAct.startKernel, KAct.setHandle true]) ++
    [KAct.touchLastUsed, KAct.release]

/-- `KernelManager.interrupt()`: no lock — plain
`if cls._km: await cls._km.interrupt_kernel()`. -/
def interruptTrace (s : KMState) : List KAct :=
  if s.kmPresent then [KAct.interruptKernel] else []

/-- `KernelManager.restart()`: no lock. -/
def restartTrace (s : KMState) : List KAct :=
  if s.kmPresent then [KAct.restartKernel] else []

/-- `KernelManager.shutdown_kernel(now)`: under the lock, shut down and
clear the handle if present. -/
def shutdownKernelTrace (s : KMState) : List KAct :=
  [KAct.acquire] ++
    (if s.kmPresent then [KAct.shutdownKernel, KAct.setHandle false]
     else []) ++
    [KAct.release]

/-- `KernelManager.maybe_gc()` at wall-clock `now`: no lock — it checks
`cls._km` and the idle time directly and shuts the kernel down in
place. -/
def maybeGcTrace (s : KMState) (now : Nat) : List KAct :=
  if s.kmPresent ∧ now - s.lastUsed > idleTtlSec then
    [KAct.shutdownKernel, KAct.setHandle false]
  else []

/-- Does every kernel-mutating step of the trace happen with the mutex
held (`d` = current lock depth)? -/
def underLockFrom (d : Nat) : List KAct → Bool
  | [] => true
  | KAct.acquire :: rest => underLockFrom (d + 1) rest
  | KAct.release :: rest => underLockFrom (d - 1) rest
  | a :: rest => (!a.isKernelMutation || decide (0 < d)) && underLockFrom d rest

/-- A trace executes its kernel mutations entirely under the mutex. -/
def underLock (tr : List KAct) : Bool := underLockFrom 0 tr

/-! ## `routes/terminal_ws.py` -/

/-- The `cwd` query parameter once parsed as a path: absolute or
relative, as a list of components (which may include `".."` and
`"."`). -/
structure RelPath where
  absolute : Bool
  segs : List String
  deriving DecidableEq

/-- Lexical part of `Path.resolve()`: collapse `"."`, empty components
and `".."` (at the root, `".."` stays at the root), symlinks aside. -/
def resolveSegs (segs : List String) : List String :=
  segs.foldl
    (fun acc seg =>
      if seg = ".." then acc.dropLast
      else if seg = "." ∨ seg = "" then acc
      else acc ++ [seg])
    []

/-- `(base / (rel or "")).resolve()` — Python's `/` replaces the whole
path when the right side is absolute. -/
def joinedTarget (root : List String) (rel : Option RelPath) :
    List String :=
  match rel with
  | none => resolveSegs root
  | some r =>
      if r.absolute then resolveSegs r.segs
      else resolveSegs (root ++ r.segs)

/-- `_safe_workdir(root, rel)`: accept targets equal to the root or
strictly inside it (the `str(target).startswith(str(base) + os.sep)`
check is component-wise prefix on resolved absolute paths); inside the
root, fall back to the root itself when the target does not exist;
otherwise raise `ValueError` ("cwd outside workspace").  `root` is
assumed already resolved, as `get_root_directory` yields it. -/
def safeWorkdir (onDisk : List String → Bool) (root : List String)
    (rel : Option RelPath) : Except Unit (List String) :=
  let target := joinedTarget root rel
  if target = root ∨ root.isPrefixOf target then
    .ok (if onDisk target then target else root)
  else .error ()

/-- How the `/ws/terminal` route disposes of the connection after
`_safe_workdir`: a raised `ValueError` is answered with close code 1008
("Invalid cwd"); otherwise the session is created on the returned
working directory. -/
inductive TermDecision where
  | session (workdir : List String)
  | closed (code : Nat)
  deriving DecidableEq

/-- The connection-admission step of `terminal_ws`. -/
def terminalAdmit (onDisk : List String → Bool) (root : List String)
    (rel : Option RelPath) : TermDecision :=
  match safeWorkdir onDisk root rel with
  | .ok w => .session w
  | .error _ => .closed 1008

/-! ## Theorems -/

theorem sextetOfChar_charOfSextet :
    ∀ s, s < 64 → sextetOfChar (charOfSextet s) = some s := by decide

theorem charOfSextet_ne_pad :
    ∀ s, s < 64 → charOfSextet s ≠ padChar := by decide

/-- Claim C6: for every path accepted by the encoder — its UTF-8 byte
sequence, covering empty, Unicode and special-character paths, and
inputs of every residue mod 3 so both padded and unpadded encoded forms
arise — decoding the encoded task identifier returns the original
bytes: `id_to_path (path_to_id p) = p`. -/
theorem C6_round_trip (p : List Nat) (h : ∀ x ∈ p, x < 256) :
    id_to_path (path_to_id p) = some p := by
  induction p using path_to_id.induct with
  | case1 => rfl
  | case2 a =>
      have ha : a < 256 := h a (by simp)
      have h1 := sextetOfChar_charOfSextet (a / 4) (by omega)
      have h2 := sextetOfChar_charOfSextet (a % 4 * 16) (by omega)
      simp [path_to_id, id_to_path, h1, h2]
      omega
  | case3 a b =>
      have ha : a < 256 := h a (by simp)
      have hb : b < 256 := h b (by simp)
      have h1 := sextetOfChar_charOfSextet (a / 4) (by omega)
      have h2 := sextetOfChar_charOfSextet (a % 4 * 16 + b / 16) (by omega)
      have h3 := sextetOfChar_charOfSextet (b % 16 * 4) (by omega)
      have hc3 := charOfSextet_ne_pad (b % 16 * 4) (by omega)
      simp [path_to_id, id_to_path, h1, h2, h3, hc3]
      omega
  | case4 a b c rest ih =>
      have ha : a < 256 := h a (by simp)
      have hb : b < 256 := h b (by simp)
      have hc : c < 256 := h c (by simp)
      have h1 := sextetOfChar_charOfSextet (a / 4) (by omega)
      have h2 := sextetOfChar_charOfSextet (a % 4 * 16 + b / 16) (by omega)
      have h3 := sextetOfChar_charOfSextet (b % 16 * 4 + c / 64) (by omega)
      have h4 := sextetOfChar_charOfSextet (c % 64) (by omega)
      have hc4 := charOfSextet_ne_pad (c % 64) (by omega)
      have hrest : id_to_path (path_to_id rest) = some rest :=
        ih (fun x hx => h x (by simp [hx]))
      simp [path_to_id, id_to_path, h1, h2, h3, h4, hc4, hrest]
      omega

/-- Witness for C6: concrete round trips — the empty byte list, the
UTF-8 bytes of a Unicode path (two bytes, so the encoded form ends in
one `=` of padding), and a three-byte group with no padding. -/
theorem C6_round_trip_witness :
    id_to_path (path_to_id []) = some [] ∧
    id_to_path (path_to_id [195, 188]) = some [195, 188] ∧
    id_to_path (path_to_id [97, 47, 98]) = some [97, 47, 98] :=
  ⟨C6_round_trip [] (by decide),
   C6_round_trip [195, 188] (by decide),
   C6_round_trip [97, 47, 98] (by decide)⟩

/-- Claim C1: on the run channel, a first inbound message that does not
decode as structured data with `op == "start"` yields exactly one
`error` event, no `engine.start()` invocation, and no further reads;
a valid first start message causes `engine.start` to be invoked with
its payload. -/
theorem C1_protocol_gate (m : WsMsg) (rest : List WsMsg) :
    (firstIsStart m = false →
      (listen (m :: rest)).events = [Event.protocolError "Expected start"] ∧
      countStartCalls (listen (m :: rest)).calls = 0 ∧
      (listen (m :: rest)).readCount = 1) ∧
    (∀ p, m = WsMsg.decoded "start" p →
      (listen (m :: rest)).calls.head? = some (EngineCall.startCall p)) := by
  cases m with
  | undecodable =>
      exact ⟨fun _ => by simp [listen, countStartCalls],
             fun p hp => by cases hp⟩
  | decoded op p0 =>
      constructor
      · intro hf
        have hop : ¬op = "start" := by
          simpa [firstIsStart] using hf
        simp [listen, hop, countStartCalls]
      · intro p hp
        cases hp
        simp [listen]

/-- Witness for C1: a wrong-op first message is answered by a single
`error` event with the engine never started and exactly one read;
a valid start message leads with the engine `start()` call. -/
theorem C1_protocol_gate_witness :
    (listen [WsMsg.decoded "stop" "x"]).events =
      [Event.protocolError "Expected start"] ∧
    countStartCalls (listen [WsMsg.decoded "stop" "x"]).calls = 0 ∧
    (listen [WsMsg.decoded "stop" "x"]).readCount = 1 ∧
    (listen [WsMsg.decoded "start" "cfg"]).calls.head? =
      some (EngineCall.startCall "cfg") :=
  ⟨((C1_protocol_gate (WsMsg.decoded "stop" "x") []).1 (by decide)).1,
   ((C1_protocol_gate (WsMsg.decoded "stop" "x") []).1 (by decide)).2.1,
   ((C1_protocol_gate (WsMsg.decoded "stop" "x") []).1 (by decide)).2.2,
   (C1_protocol_gate (WsMsg.decoded "start" "cfg") []).2 "cfg" rfl⟩

/-- Counterexample to C2 as stated: for the Notebook engine variant,
calling `shutdown()` twice emits two `run_end` events, not one —
`NotebookEngine.shutdown` sends its `run_end` unconditionally, with no
once-flag. -/
theorem C2_counterexample :
    countRunEnd (nbShutdown 5 ⟨0⟩ ++ nbShutdown 9 ⟨0⟩) = 2 ∧
    ¬countRunEnd (nbShutdown 5 ⟨0⟩ ++ nbShutdown 9 ⟨0⟩) = 1 := by
  decide

/-- Claim C2 (amended): calling `shutdown()` twice produces exactly one
terminal `run_end` for the Subprocess engine (deduplicated by the
`_did_end` flag in `_finalize`) and for the Waldiez engine with a live
delegate; a Waldiez engine with no delegate emits nothing on shutdown;
the Notebook engine emits one `run_end` per `shutdown()` call, so two
calls produce two; and in every variant `shutdown()` before `start()`
completes without raising (the never-started Subprocess engine emits a
single `run_end{status: "ok", returnCode: 0}`). -/
theorem C2_shutdown_amended (proc : Option ProcState)
    (ts t1 t2 : Nat) (task : Option Unit) :
    countRunEnd ((subShutdown t1 ⟨proc, false, ts⟩).2 ++
      (subShutdown t2 (subShutdown t1 ⟨proc, false, ts⟩).1).2) = 1 ∧
    countRunEnd ((wzShutdown t1 ⟨task, some ⟨proc, false, ts⟩⟩).2.1 ++
      (wzShutdown t2
        (wzShutdown t1 ⟨task, some ⟨proc, false, ts⟩⟩).1).2.1) = 1 ∧
    (wzShutdown t1 ⟨task, none⟩).2.1 = [] ∧
    countRunEnd (nbShutdown t1 ⟨ts⟩ ++ nbShutdown t2 ⟨ts⟩) = 2 ∧
    (subShutdown t1 ⟨none, false, ts⟩).2 =
      [Event.runEnd "ok" (some 0) (t1 - ts)] := by
  refine ⟨?_, ?_, rfl, ?_, rfl⟩
  · cases proc with
    | none => simp [subShutdown, subFinalize, countRunEnd, Event.isRunEnd]
    | some p =>
        simp [subShutdown, subFinalize, countRunEnd, Event.isRunEnd]
  · cases proc with
    | none =>
        simp [wzShutdown, subShutdown, subFinalize, countRunEnd,
          Event.isRunEnd]
    | some p =>
        simp [wzShutdown, subShutdown, subFinalize, countRunEnd,
          Event.isRunEnd]
  · simp [nbShutdown, countRunEnd, Event.isRunEnd]

/-- Counterexample to C3 as stated: on a three-code-cell notebook whose
second cell gets a kernel shell reply of status "error", the engine
emits `cell_end{index:1, status:"error"}` but then continues — a
`cell_start` for index 2 is emitted, because only a timeout or an
execution exception breaks the cell loop. -/
theorem C3_counterexample :
    Event.cellEnd 1 "error" ∈
      runCells [⟨true⟩, ⟨true⟩, ⟨true⟩]
        [CellOutcome.reply "ok", CellOutcome.reply "error",
         CellOutcome.reply "aborted"] 0 ∧
    Event.cellStart 2 ∈
      runCells [⟨true⟩, ⟨true⟩, ⟨true⟩]
        [CellOutcome.reply "ok", CellOutcome.reply "error",
         CellOutcome.reply "aborted"] 0 := by
  decide

/-- Claim C3 (amended): when a cell's kernel shell reply carries status
"error", the engine emits `cell_end` with that status (the traceback
reaches the client as a `run_stderr` via the iopub forwarder) and
continues with the remaining cells — the next code cell's `cell_start`
is emitted; only a per-cell timeout or an execution exception aborts
the remaining cells (no event for any later cell). -/
theorem C3_error_reply_continues_amended :
    (∀ (rest : List NbCell) (os : List CellOutcome) (idx : Nat)
        (s : String),
      runCells (⟨true⟩ :: rest) (CellOutcome.reply s :: os) idx =
        Event.cellStart idx :: Event.cellEnd idx s ::
          runCells rest os (idx + 1)) ∧
    (∀ (rest : List NbCell) (os : List CellOutcome) (idx : Nat)
        (o : CellOutcome),
      Event.cellStart (idx + 1) ∈
        runCells (⟨true⟩ :: ⟨true⟩ :: rest)
          (CellOutcome.reply "error" :: o :: os) idx) ∧
    (∀ (rest : List NbCell) (os : List CellOutcome) (idx : Nat)
        (m : String),
      runCells (⟨true⟩ :: rest) (CellOutcome.execError m :: os) idx =
        [Event.cellStart idx,
         Event.runStream "stderr" ("Execution error: " ++ m ++ "\n"),
         Event.cellEnd idx "error"]) ∧
    (∀ (rest : List NbCell) (os : List CellOutcome) (idx : Nat),
      runCells (⟨true⟩ :: rest) (CellOutcome.timedOut :: os) idx =
        [Event.cellStart idx,
         Event.runStream "stderr" "Execution timed out; interrupted.\n",
         Event.cellEnd idx "timeout"]) ∧
    (∀ tb, forwardIopub (IopubMsg.errorMsg tb) =
        [Event.runStream "stderr" (String.intercalate "\n" tb)]) := by
  refine ⟨?_, ?_, ?_, ?_, ?_⟩
  · intro rest os idx s
    simp [runCells]
  · intro rest os idx o
    cases o <;> simp [runCells]
  · intro rest os idx m
    simp [runCells]
  · intro rest os idx
    simp [runCells]
  · intro tb
    simp [forwardIopub]

/-- Counterexample to C4 as stated: the idle-reaper `maybe_gc` shuts
the kernel down and clears the handle without ever acquiring the
`KernelManager` mutex (concretely: kernel present, idle for longer than
the 900s TTL), so not every kernel-mutating operation executes while
holding the mutex. -/
theorem C4_counterexample :
    underLock (maybeGcTrace ⟨true, 0⟩ 1000) = false ∧
    KAct.shutdownKernel ∈ maybeGcTrace ⟨true, 0⟩ 1000 := by
  decide

/-- Claim C4 (amended): only `get` (lazy start) and `shutdown_kernel`
execute under the `KernelManager` mutex — in particular `get` starts a
kernel only when none exists and does so under the lock, so concurrent
`get()` callers observe a single kernel start — while `interrupt`,
`restart` and the idle-reaper `maybe_gc` never acquire it: when the
kernel is live (and, for `maybe_gc`, idle past the TTL) they touch it
outside the mutex, so the idle-reaper can race an active run. -/
theorem C4_mutex_amended :
    (∀ s : KMState, underLock (getTrace s) = true) ∧
    (∀ s : KMState, underLock (shutdownKernelTrace s) = true) ∧
    (∀ lu : Nat, KAct.startKernel ∉ getTrace ⟨true, lu⟩) ∧
    (∀ s : KMState, KAct.acquire ∉ interruptTrace s) ∧
    (∀ s : KMState, KAct.acquire ∉ restartTrace s) ∧
    (∀ (s : KMState) (now : Nat), KAct.acquire ∉ maybeGcTrace s now) ∧
    (∀ lu : Nat, underLock (interruptTrace ⟨true, lu⟩) = false) ∧
    (∀ lu : Nat, underLock (restartTrace ⟨true, lu⟩) = false) ∧
    underLock (maybeGcTrace ⟨true, 100⟩ 10000) = false := by
  refine ⟨?_, ?_, ?_, ?_, ?_, ?_, ?_, ?_, by decide⟩
  · rintro ⟨b, lu⟩
    cases b <;> rfl
  · rintro ⟨b, lu⟩
    cases b <;> rfl
  · intro lu
    simp [getTrace]
  · rintro ⟨b, lu⟩
    cases b <;> simp [interruptTrace]
  · rintro ⟨b, lu⟩
    cases b <;> simp [restartTrace]
  · intro s now
    simp only [maybeGcTrace]
    split <;> simp
  · intro lu
    rfl
  · intro lu
    rfl

/-- Counterexample to C5 as stated: with the Subprocess engine's output
queue full (capacity 2 holding messages 0 and 1), a newly arriving
message 2 is not admitted and the oldest message 0 is not dropped —
`_read_stream` performs a plain blocking `await queue.put`, so the
producer suspends and the queue is left unchanged. -/
theorem C5_counterexample :
    subStreamPut 2 [0, 1] 2 = PutOutcome.producerBlocked [0, 1] ∧
    (0 : Nat) ∈ (subStreamPut 2 [0, 1] 2).queueAfter ∧
    (2 : Nat) ∉ (subStreamPut 2 [0, 1] 2).queueAfter := by
  decide

/-- Claim C5 (amended): when the Subprocess engine's bounded output
queue (maxsize 10000) is full, the stream reader's put suspends the
producer and drops nothing (the newest message is admitted only once
the consumer frees space); the drop-oldest-to-admit-newest overflow
policy is implemented by the Notebook engine's `_enqueue` (maxsize
1000), which on a full queue discards the head and appends the new
message. -/
theorem C5_backpressure_amended :
    (∀ (cap : Nat) (q : List Nat) (m : Nat), cap ≤ q.length →
      subStreamPut cap q m = PutOutcome.producerBlocked q) ∧
    (∀ (cap : Nat) (q : List Nat) (m : Nat), q.length < cap →
      subStreamPut cap q m = PutOutcome.admitted (q ++ [m])) ∧
    (∀ (cap : Nat) (q : List Nat) (m : Nat), cap ≤ q.length →
      nbEnqueue cap q m = q.tail ++ [m]) ∧
    (∀ (cap : Nat) (q : List Nat) (m : Nat), q.length < cap →
      nbEnqueue cap q m = q ++ [m]) ∧
    subQueueCap = 10000 ∧ nbMaxQueue = 1000 := by
  refine ⟨?_, ?_, ?_, ?_, rfl, rfl⟩
  · intro cap q m h
    simp [subStreamPut, Nat.not_lt.mpr h]
  · intro cap q m h
    simp [subStreamPut, h]
  · intro cap q m h
    simp [nbEnqueue, Nat.not_lt.mpr h]
  · intro cap q m h
    simp [nbEnqueue, h]

/-- Witness for C5 (amended): a full queue of capacity 2 blocks the
subprocess producer unchanged while the notebook enqueue drops the
oldest and admits the newest; a non-full queue appends in both. -/
theorem C5_backpressure_amended_witness :
    subStreamPut 2 [5, 6] 7 = PutOutcome.producerBlocked [5, 6] ∧
    subStreamPut 2 [5] 7 = PutOutcome.admitted [5, 7] ∧
    nbEnqueue 2 [5, 6] 7 = [6, 7] ∧
    nbEnqueue 2 [5] 7 = [5, 7] :=
  ⟨C5_backpressure_amended.1 2 [5, 6] 7 (by decide),
   C5_backpressure_amended.2.1 2 [5] 7 (by decide),
   C5_backpressure_amended.2.2.1 2 [5, 6] 7 (by decide),
   C5_backpressure_amended.2.2.2.1 2 [5] 7 (by decide)⟩

/-- Claim C7: if compilation raises during `WaldiezEngine.start()`, the
engine emits exactly `compile_start`, `compile_error` with the message,
and `run_end{status:"error", returnCode:-1}`, creates no delegate; and
`shutdown()` on the delegate-less engine performs nothing beyond
cancelling its owned task — no events, no delegate shutdown. -/
theorem C7_compile_failure (src msg : String) (userArgs : List String)
    (task : Option Unit) (now : Nat) :
    wzStart src (Except.error msg) userArgs =
      ([Event.compileStart src, Event.compileError msg,
        Event.runEnd "error" (some (-1)) 0], none) ∧
    (wzShutdown now ⟨task, none⟩).2.1 = [] ∧
    (wzShutdown now ⟨task, none⟩).2.2 = false ∧
    (wzShutdown now ⟨task, none⟩).1.task = none :=
  ⟨rfl, rfl, rfl, rfl⟩

/-- Counterexample to C8 as stated: on a no-reply timeout the blocked
worker-thread caller does not proceed with the empty string — with the
default 30s timeout and any positive delay (here one time unit)
between the worker's `future.result` clock start and the coroutine's
`wait_for` clock start, the coroutine's empty string lands after the
worker's own deadline and `future.result` raises
`concurrent.futures.TimeoutError` in the worker thread instead. -/
theorem C8_counterexample :
    onInputNoReply inputTimeoutDefault 1 = WorkerResult.timeoutError ∧
    ¬onInputNoReply inputTimeoutDefault 1 = WorkerResult.value "" := by
  decide

/-- Claim C8 (amended): when an interactive `input_request` receives no
matching client reply within the input timeout (default 30 seconds),
the `_send_input_request` coroutine resolves to the empty string and
the pending-inputs entry for that request id is removed; but the
blocked worker-thread caller's `future.result(timeout=input_timeout)`
clock starts before the coroutine sends the request, so with any
positive scheduling/send delay its deadline expires first and the
worker receives a raised `concurrent.futures.TimeoutError` rather than
the empty string (only with a zero delay would the empty string
arrive); either way the worker does not hang indefinitely. -/
theorem C8_input_timeout_amended (pending : PendingInputs)
    (rid prompt : String) (h : rid ∉ pending) :
    (sendInputRequest pending rid prompt InputOutcome.timedOut).1 = "" ∧
    (sendInputRequest pending rid prompt InputOutcome.timedOut).2.1 =
      pending ∧
    rid ∉ (sendInputRequest pending rid prompt InputOutcome.timedOut).2.1 ∧
    (sendInputRequest pending rid prompt InputOutcome.timedOut).2.2 =
      [Event.inputRequest rid prompt] ∧
    (∀ d : Nat, 0 < d →
      onInputNoReply inputTimeoutDefault d = WorkerResult.timeoutError) ∧
    (∀ t : Nat, onInputNoReply t 0 = WorkerResult.value "") ∧
    inputTimeoutDefault = 30 := by
  have herase : (rid :: pending).erase rid = pending :=
    List.erase_cons_head rid pending
  refine ⟨rfl, ?_, ?_, rfl, ?_, ?_, rfl⟩
  · simp [sendInputRequest, herase]
  · simp [sendInputRequest, herase, h]
  · intro d hd
    simp only [onInputNoReply]
    have hlt : ¬d + inputTimeoutDefault ≤ inputTimeoutDefault := by omega
    simp [hlt]
  · intro t
    simp [onInputNoReply]

/-- Witness for C8 (amended): a concrete timed-out request resolves to
the empty string with its pending entry gone, while the worker blocked
behind a one-unit scheduling delay receives the timeout error. -/
theorem C8_input_timeout_amended_witness :
    (sendInputRequest [] "r1" "name?" InputOutcome.timedOut).1 = "" ∧
    "r1" ∉ (sendInputRequest [] "r1" "name?" InputOutcome.timedOut).2.1 ∧
    onInputNoReply inputTimeoutDefault 1 = WorkerResult.timeoutError :=
  ⟨(C8_input_timeout_amended [] "r1" "name?" (by simp)).1,
   (C8_input_timeout_amended [] "r1" "name?" (by simp)).2.2.1,
   (C8_input_timeout_amended [] "r1" "name?" (by simp)).2.2.2.2.1 1
     (by decide)⟩

/-- Claim C9: whenever the Subprocess engine finalizes with the child's
return code available, the single `run_end` reports `status: "ok"` iff
the return code is 0 (else "error") and carries the return code and the
elapsed milliseconds; and a run whose child prints one line and exits 0
yields `run_status{state: started}`, a `run_stdout` with the printed
line, and `run_end{status: "ok", returnCode: 0}`. -/
theorem C9_run_end_status :
    (∀ (rc : Int) (p : Option ProcState) (ts now : Nat),
      (subFinalize now (some rc) ⟨p, false, ts⟩).2 =
        [Event.runEnd (if rc = 0 then "ok" else "error") (some rc)
          (now - ts)]) ∧
    subRunEvents ["Hello, World!\n".data] 0 100 2600 =
      [Event.runStatus "started",
       Event.runStream "stdout" "Hello, World!",
       Event.runEnd "ok" (some 0) 2500] := by
  constructor
  · intro rc p ts now
    simp [subFinalize]
  · decide

/-- Claim C10: on the terminal channel, a `cwd` whose resolved target
stays inside the workspace root but does not exist on disk is silently
replaced by the root itself (the session opens on the root rather than
the connection being rejected); only a `cwd` whose resolved target
escapes the root is rejected, with close code 1008. -/
theorem C10_terminal_cwd (onDisk : List String → Bool)
    (root : List String) (rel : Option RelPath) :
    ((joinedTarget root rel = root ∨
        root.isPrefixOf (joinedTarget root rel)) →
      onDisk (joinedTarget root rel) = false →
      terminalAdmit onDisk root rel = TermDecision.session root) ∧
    (¬(joinedTarget root rel = root ∨
        root.isPrefixOf (joinedTarget root rel)) →
      terminalAdmit onDisk root rel = TermDecision.closed 1008) := by
  constructor
  · intro hin hmiss
    have hin2 : joinedTarget root rel = root ∨
        root <+: joinedTarget root rel := by simpa using hin
    simp [terminalAdmit, safeWorkdir, hin2, hmiss]
  · intro hout
    have hout2 : ¬(joinedTarget root rel = root ∨
        root <+: joinedTarget root rel) := by simpa using hout
    simp [terminalAdmit, safeWorkdir, hout2]

/-- Witness for C10: under a root `/home/user` (with nothing existing
on disk), `cwd=sub` resolves inside the root but is absent, so the
session opens on the root itself; `cwd=../..` resolves outside and the
connection is closed with 1008; an absolute `cwd=/etc` likewise. -/
theorem C10_terminal_cwd_witness :
    terminalAdmit (fun _ => false) ["home", "user"]
      (some ⟨false, ["sub"]⟩) = TermDecision.session ["home", "user"] ∧
    terminalAdmit (fun _ => false) ["home", "user"]
      (some ⟨false, ["..", ".."]⟩) = TermDecision.closed 1008 ∧
    terminalAdmit (fun _ => false) ["home", "user"]
      (some ⟨true, ["etc"]⟩) = TermDecision.closed 1008 :=
  ⟨(C10_terminal_cwd (fun _ => false) ["home", "user"]
      (some ⟨false, ["sub"]⟩)).1 (by decide) rfl,
   (C10_terminal_cwd (fun _ => false) ["home", "user"]
      (some ⟨false, ["..", ".."]⟩)).2 (by decide),
   (C10_terminal_cwd (fun _ => false) ["home", "user"]
      (some ⟨true, ["etc"]⟩)).2 (by decide)⟩

end WaldiezStudio
